import Mathlib

/-!
Shallow embedding of the DeepSignal subscription-lifecycle core (src/app.py).

The embedding models the three Flask handlers `submit_email`, `submit_survey`
and `validate_email` as pure functions over an explicit store state, with the
mail dispatcher's success supplied as a boolean parameter and its invocations
recorded as an event trace.  The MongoDB `subscribers` collection is modelled
as a list of documents carrying their `_id`; `find_one`, `insert_one`,
`update_one` (with `matched_count`/`modified_count`) and `delete_one` follow
Mongo's first-match semantics.  The `itsdangerous.URLSafeTimedSerializer` is
modelled symbolically: a token records the signed payload, salt, embedded
issuance timestamp (in seconds, as in the library) and the signing secret;
field equality of `secret`/`salt` stands for a matching signature, which is
faithful because the library's signing is a deterministic function of
(secret, salt, payload, timestamp).
-/

namespace DeepSignal

/-- A character removed by Python's `str.strip()` (ASCII whitespace; the
Unicode-only space characters are not modelled). -/
def isPySpace (c : Char) : Bool :=
  c = ' ' || c = '\t' || c = '\n' || c = '\r' || c = '\x0b' || c = '\x0c'

/-- Python `str.strip()`. -/
def pyStrip (l : List Char) : List Char :=
  ((l.dropWhile isPySpace).reverse.dropWhile isPySpace).reverse

/-- Python `str.lower()` (ASCII range, which is all the regex admits). -/
def pyLower (l : List Char) : List Char :=
  l.map Char.toLower

/-- `request.form.get('email', '').strip().lower()` — the handlers' email
normalization. -/
def normalizeEmail (s : String) : String :=
  ⟨pyLower (pyStrip s.data)⟩

/-- Character class `[a-zA-Z0-9._%+-]` of the local part. -/
def isLocalChar (c : Char) : Bool :=
  c.isAlpha || c.isDigit || c = '.' || c = '_' || c = '%' || c = '+' || c = '-'

/-- Character class `[a-zA-Z0-9.-]` of the domain part. -/
def isDomainChar (c : Char) : Bool :=
  c.isAlpha || c.isDigit || c = '.' || c = '-'

/-- Match of `[a-zA-Z0-9.-]+\.[a-zA-Z]{2,}` against a whole domain string.
Because the TLD class `[a-zA-Z]` excludes the dot and must run to the end,
any successful match necessarily splits the string at its last dot, so the
matcher checks exactly that split. -/
def domainMatch (d : List Char) : Bool :=
  let afterRev := d.reverse.takeWhile (fun c => c ≠ '.')
  if afterRev.length = d.length then
    false
  else
    let before := (d.reverse.drop (afterRev.length + 1)).reverse
    let tld := afterRev.reverse
    decide (before ≠ []) && before.all isDomainChar &&
      decide (2 ≤ tld.length) && tld.all Char.isAlpha

/-- Match of the full pattern body `[a-zA-Z0-9._%+-]+@[a-zA-Z0-9.-]+\.[a-zA-Z]{2,}`
against a whole string.  Neither character class admits `@`, so a match forces
exactly one `@` in the string. -/
def coreMatch (l : List Char) : Bool :=
  match l.splitOn '@' with
  | [localPart, domainPart] =>
      decide (localPart ≠ []) && localPart.all isLocalChar && domainMatch domainPart
  | _ => false

/-- `is_valid_email` (src/app.py): `re.match(r'^[a-zA-Z0-9._%+-]+@[a-zA-Z0-9.-]+\.[a-zA-Z]{2,}$', email)`.
Python's `$` also matches just before a single trailing newline, hence the
second disjunct. -/
def is_valid_email (s : String) : Bool :=
  coreMatch s.data ||
    (decide (s.data.getLast? = some '\n') && coreMatch s.data.dropLast)

/-- Symbolic model of a token produced by `itsdangerous.URLSafeTimedSerializer`:
the signed payload (the email), the salt, the embedded issuance timestamp in
whole seconds, and the signing secret.  A real token is a deterministic
function of these four values, and its signature check passes exactly when
the verifier's secret and salt agree with the issuer's. -/
structure SignedToken where
  payload : String
  salt : String
  timestamp : Nat
  secret : String
deriving DecidableEq

/-- `generate_validation_token(email)`: `serializer.dumps(email, salt='email-validation')`
at issuance time `now`. -/
def generate_validation_token (secret : String) (email : String) (now : Nat) : SignedToken :=
  { payload := email, salt := "email-validation", timestamp := now, secret := secret }

/-- `verify_validation_token(token, max_age=3600)`: `serializer.loads` returns the
payload when the signature matches (same secret and salt) and the elapsed time
since issuance does not exceed `max_age`; on `BadSignature`/`SignatureExpired`
the function returns `None`. -/
def verify_validation_token (secret : String) (token : SignedToken) (now : Nat)
    (max_age : Nat) : Option String :=
  if token.secret = secret ∧ token.salt = "email-validation" ∧
      now - token.timestamp ≤ max_age then
    some token.payload
  else
    none

/-- A subscriber document, as built in `submit_email`.  Fields that Mongo
`$unset` removes are modelled as `Option`. -/
structure Subscriber where
  email : String
  email_validated : Bool
  validation_token : Option SignedToken
  token_created_at : Option Nat
  content_preferences : List String
  signup_date : Nat
  updated_at : Nat
  validation_date : Option Nat
deriving DecidableEq

/-- A stored document together with its Mongo `_id`. -/
structure StoredDoc where
  oid : Nat
  doc : Subscriber
deriving DecidableEq

/-- The `subscribers` collection: documents in insertion order plus the next
fresh `_id`. -/
structure DB where
  docs : List StoredDoc
  nextId : Nat
deriving DecidableEq

/-- Well-formedness of the collection: every `_id` is below the fresh counter
and the `_id`s are pairwise distinct (Mongo guarantees unique `_id`s). -/
def DB.WF (db : DB) : Prop :=
  (∀ d ∈ db.docs, d.oid < db.nextId) ∧ (db.docs.map StoredDoc.oid).Nodup

/-- `subscribers.find_one({'email': email})`: first document with the given
email. -/
def find_one (db : DB) (email : String) : Option Subscriber :=
  (db.docs.find? (fun d => d.doc.email == email)).map StoredDoc.doc

/-- `subscribers.insert_one(doc)`: append with a fresh `_id`, returning the new
state and the inserted `_id`. -/
def insert_one (db : DB) (doc : Subscriber) : DB × Nat :=
  ({ docs := db.docs ++ [⟨db.nextId, doc⟩], nextId := db.nextId + 1 }, db.nextId)

/-- `subscribers.delete_one({'_id': oid})` on the document list: remove the
first document with the given `_id`. -/
def deleteFirstById (oid : Nat) : List StoredDoc → List StoredDoc
  | [] => []
  | d :: rest => if d.oid = oid then rest else d :: deleteFirstById oid rest

/-- `subscribers.delete_one({'_id': oid})`. -/
def delete_one_id (db : DB) (oid : Nat) : DB :=
  { db with docs := deleteFirstById oid db.docs }

/-- The counts reported by Mongo for an `update_one`. -/
structure UpdateResult where
  matched_count : Nat
  modified_count : Nat
deriving DecidableEq

/-- `update_one({'email': e}, ...)` on the document list: apply `f` to the
first matching document.  `matched_count` is 1 iff a document matched;
`modified_count` is 1 iff the write actually changed the document. -/
def updateFirst (e : String) (f : Subscriber → Subscriber) :
    List StoredDoc → List StoredDoc × UpdateResult
  | [] => ([], ⟨0, 0⟩)
  | d :: rest =>
    if d.doc.email == e then
      (⟨d.oid, f d.doc⟩ :: rest, ⟨1, if f d.doc = d.doc then 0 else 1⟩)
    else
      (d :: (updateFirst e f rest).1, (updateFirst e f rest).2)

/-- `subscribers.update_one({'email': e}, {'$set': ...})`. -/
def update_one (db : DB) (e : String) (f : Subscriber → Subscriber) : DB × UpdateResult :=
  ({ db with docs := (updateFirst e f db.docs).1 }, (updateFirst e f db.docs).2)

/-- An invocation of the mail dispatcher (recorded whether or not the send
succeeds). -/
inductive MailEvent where
  | validation (email : String) (token : SignedToken)
  | welcome (email : String) (preferences : List String)
deriving DecidableEq

/-- The distinct user-facing messages returned by the handlers, one constructor
per string literal in src/app.py. -/
inductive Msg where
  /-- "Email address is required" -/
  | emailRequired
  /-- "Please enter a valid email address" -/
  | invalidEmail
  /-- "This email is already subscribed and validated" -/
  | alreadySubscribed
  /-- "A new validation email has been sent to your inbox" -/
  | resentValidation
  /-- "Failed to send validation email. Please try again." -/
  | mailSendFailed
  /-- "Please check your email and click the validation link to complete your subscription" -/
  | checkYourEmail
  /-- "Preferences updated successfully" -/
  | preferencesUpdated
  /-- "Subscriber not found" -/
  | subscriberNotFound
  /-- "Invalid or expired validation link. Please try subscribing again." -/
  | invalidOrExpiredLink
  /-- "Subscriber not found. Please try subscribing again." -/
  | subscriberMissing
  /-- "Your email is already validated. Welcome!" -/
  | alreadyValidatedWelcome
  /-- "Welcome! Your email has been validated ..." -/
  | validatedWelcome
deriving DecidableEq

/-- A `jsonify(...), status` response of `submit_email` / `submit_survey`. -/
structure JsonResponse where
  success : Bool
  message : Msg
  status : Nat
deriving DecidableEq

/-- A rendered `validation_result.html` page: its `success` flag and message. -/
structure ValidationPage where
  success : Bool
  message : Msg
deriving DecidableEq

/-- The `/submit_email` handler.  `secret` is the serializer's signing key,
`now` the common value of the `datetime.utcnow()` calls, `mailOk` whether
`send_validation_email` succeeds.  Returns the response, the new store state,
and the mail-dispatcher invocations. -/
def submit_email (secret : String) (now : Nat) (mailOk : Bool) (rawEmail : String)
    (db : DB) : JsonResponse × DB × List MailEvent :=
  let email := normalizeEmail rawEmail
  if email = "" then
    (⟨false, Msg.emailRequired, 400⟩, db, [])
  else if is_valid_email email = false then
    (⟨false, Msg.invalidEmail, 400⟩, db, [])
  else
    match find_one db email with
    | some existing =>
      if existing.email_validated then
        (⟨false, Msg.alreadySubscribed, 400⟩, db, [])
      else
        let tok := generate_validation_token secret email now
        if mailOk then
          (⟨true, Msg.resentValidation, 200⟩,
           (update_one db email (fun s =>
             { s with validation_token := some tok, token_created_at := some now,
                      updated_at := now })).1,
           [MailEvent.validation email tok])
        else
          (⟨false, Msg.mailSendFailed, 500⟩, db, [MailEvent.validation email tok])
    | none =>
      let tok := generate_validation_token secret email now
      let subscriber_data : Subscriber :=
        { email := email, email_validated := false, validation_token := some tok,
          token_created_at := some now, content_preferences := [],
          signup_date := now, updated_at := now, validation_date := none }
      let inserted := insert_one db subscriber_data
      if mailOk then
        (⟨true, Msg.checkYourEmail, 200⟩, inserted.1, [MailEvent.validation email tok])
      else
        (⟨false, Msg.mailSendFailed, 500⟩, delete_one_id inserted.1 inserted.2,
         [MailEvent.validation email tok])

/-- The `/submit_survey` handler: overwrite `content_preferences` and
`updated_at`, then report success iff `modified_count > 0`. -/
def submit_survey (now : Nat) (rawEmail : String) (preferences : List String)
    (db : DB) : JsonResponse × DB :=
  let email := normalizeEmail rawEmail
  if email = "" then
    (⟨false, Msg.emailRequired, 400⟩, db)
  else
    let upd := update_one db email (fun s =>
      { s with content_preferences := preferences, updated_at := now })
    if 0 < upd.2.modified_count then
      (⟨true, Msg.preferencesUpdated, 200⟩, upd.1)
    else
      (⟨false, Msg.subscriberNotFound, 404⟩, upd.1)

set_option linter.unusedVariables false in
/-- The `/validate/<token>` handler.  `welcomeOk` is whether `send_welcome_email`
succeeds; the code ignores its return value, so the parameter is unused — that
very fact is the content of the no-rollback theorem below.  Returns the
rendered page, the new store state, and the mail-dispatcher invocations. -/
def validate_email (secret : String) (now : Nat) (welcomeOk : Bool) (token : SignedToken)
    (db : DB) : ValidationPage × DB × List MailEvent :=
  match verify_validation_token secret token now 3600 with
  | none => (⟨false, Msg.invalidOrExpiredLink⟩, db, [])
  | some email =>
    match find_one db email with
    | none => (⟨false, Msg.subscriberMissing⟩, db, [])
    | some subscriber =>
      if subscriber.email_validated then
        (⟨true, Msg.alreadyValidatedWelcome⟩, db, [])
      else
        (⟨true, Msg.validatedWelcome⟩,
         (update_one db email (fun s =>
           { s with email_validated := true, validation_date := some now,
                    updated_at := now, validation_token := none,
                    token_created_at := none })).1,
         [MailEvent.welcome email subscriber.content_preferences])

/-- The record invariant of claim C4: the token bookkeeping fields are present
exactly while the record is unvalidated. -/
def recInv (s : Subscriber) : Prop :=
  s.validation_token.isSome = !s.email_validated ∧
    s.token_created_at.isSome = !s.email_validated

/-- The store-wide record invariant. -/
def storeInv (db : DB) : Prop :=
  ∀ d ∈ db.docs, recInv d.doc

/-- No document is ever un-validated: a document of the new state that shares
its `_id` with a validated document of the old state is still validated. -/
def noUnvalidate (db db' : DB) : Prop :=
  ∀ d' ∈ db'.docs, ∀ d ∈ db.docs, d'.oid = d.oid →
    d.doc.email_validated = true → d'.doc.email_validated = true

/-- Concrete sample data used by the witnesses: a token issued for a@b.co at
time 0. -/
def tokA : SignedToken :=
  generate_validation_token "k" "a@b.co" 0

/-- Sample PENDING subscriber record for a@b.co. -/
def subA : Subscriber :=
  ⟨"a@b.co", false, some tokA, some 0, [], 0, 0, none⟩

/-- Sample store holding only the PENDING record for a@b.co. -/
def dbA : DB :=
  ⟨[⟨0, subA⟩], 1⟩

/-- Sample VALIDATED subscriber record for a@b.co. -/
def subV : Subscriber :=
  ⟨"a@b.co", true, none, none, ["x"], 0, 2, some 2⟩

/-- Sample store holding only the VALIDATED record for a@b.co. -/
def dbV : DB :=
  ⟨[⟨0, subV⟩], 1⟩

/-- Sample VALIDATED record for an unrelated address z@z.co. -/
def subZ : Subscriber :=
  ⟨"z@z.co", true, none, none, [], 0, 0, some 0⟩

/-- Sample store holding only the unrelated record. -/
def dbZ : DB :=
  ⟨[⟨0, subZ⟩], 1⟩

/-- The empty store. -/
def dbE : DB :=
  ⟨[], 0⟩

/-! ### Store lemmas -/

theorem updateFirst_of_find?_none (e : String) (f : Subscriber → Subscriber)
    {l : List StoredDoc} (h : l.find? (fun d => d.doc.email == e) = none) :
    updateFirst e f l = (l, ⟨0, 0⟩) := by
  induction l with
  | nil => rfl
  | cons d rest ih =>
    rw [List.find?_eq_none] at h
    have hd : ¬(d.doc.email == e) = true := h d (by simp)
    have hrest : rest.find? (fun x => x.doc.email == e) = none :=
      List.find?_eq_none.mpr fun x hx => h x (by simp [hx])
    simp [updateFirst, hd, ih hrest]

theorem updateFirst_of_find?_some (e : String) (f : Subscriber → Subscriber)
    {l : List StoredDoc} {d0 : StoredDoc}
    (h : l.find? (fun d => d.doc.email == e) = some d0) :
    (updateFirst e f l).2 = ⟨1, if f d0.doc = d0.doc then 0 else 1⟩ := by
  induction l with
  | nil => simp at h
  | cons d rest ih =>
    by_cases hd : (d.doc.email == e) = true
    · rw [List.find?_cons_of_pos (p := fun x => x.doc.email == e) rest hd] at h
      injection h with h
      subst h
      simp [updateFirst, hd]
    · rw [List.find?_cons_of_neg (p := fun x => x.doc.email == e) rest hd] at h
      simp [updateFirst, hd, ih h]

theorem find?_updateFirst (e : String) (f : Subscriber → Subscriber)
    {l : List StoredDoc} {d0 : StoredDoc}
    (h : l.find? (fun d => d.doc.email == e) = some d0)
    (hf : (f d0.doc).email = d0.doc.email) :
    (updateFirst e f l).1.find? (fun d => d.doc.email == e) = some ⟨d0.oid, f d0.doc⟩ := by
  induction l with
  | nil => simp at h
  | cons d rest ih =>
    by_cases hd : (d.doc.email == e) = true
    · rw [List.find?_cons_of_pos (p := fun x => x.doc.email == e) rest hd] at h
      injection h with h
      subst h
      have hpos : ((⟨d.oid, f d.doc⟩ : StoredDoc).doc.email == e) = true := by
        show ((f d.doc).email == e) = true
        rw [hf]
        exact hd
      simp [updateFirst, hd, List.find?_cons_of_pos (p := fun x => x.doc.email == e) rest hpos]
    · rw [List.find?_cons_of_neg (p := fun x => x.doc.email == e) rest hd] at h
      simp [updateFirst, hd, ih h]

theorem mem_updateFirst (e : String) (f : Subscriber → Subscriber)
    {l : List StoredDoc} {d' : StoredDoc} (h : d' ∈ (updateFirst e f l).1) :
    d' ∈ l ∨ ∃ d0, l.find? (fun d => d.doc.email == e) = some d0 ∧
      d' = ⟨d0.oid, f d0.doc⟩ := by
  induction l with
  | nil => simp [updateFirst] at h
  | cons d rest ih =>
    by_cases hd : (d.doc.email == e) = true
    · simp only [updateFirst, if_pos hd] at h
      rcases List.mem_cons.mp h with h1 | h1
      · exact Or.inr ⟨d, List.find?_cons_of_pos (p := fun x => x.doc.email == e) rest hd, h1⟩
      · exact Or.inl (List.mem_cons_of_mem d h1)
    · simp only [updateFirst, if_neg hd] at h
      rcases List.mem_cons.mp h with h1 | h1
      · exact Or.inl (h1 ▸ List.mem_cons_self d rest)
      · rcases ih h1 with h2 | ⟨d0, hf0, hd'⟩
        · exact Or.inl (List.mem_cons_of_mem d h2)
        · exact Or.inr ⟨d0, by rw [List.find?_cons_of_neg (p := fun x => x.doc.email == e) rest hd]; exact hf0, hd'⟩

theorem countP_updateFirst (e : String) (f : Subscriber → Subscriber)
    (p : StoredDoc → Bool) (hp : ∀ oid s, p ⟨oid, f s⟩ = p ⟨oid, s⟩)
    (l : List StoredDoc) : (updateFirst e f l).1.countP p = l.countP p := by
  induction l with
  | nil => rfl
  | cons d rest ih =>
    by_cases hd : (d.doc.email == e) = true
    · simp only [updateFirst, if_pos hd]
      rw [List.countP_cons, List.countP_cons, hp d.oid d.doc]
    · simp only [updateFirst, if_neg hd]
      rw [List.countP_cons, List.countP_cons, ih]

theorem find?_append_of_none {α : Type} {p : α → Bool} {l1 l2 : List α}
    (h : l1.find? p = none) : (l1 ++ l2).find? p = l2.find? p := by
  rw [List.find?_append, h, Option.none_or]

theorem deleteFirstById_append_fresh {l : List StoredDoc} {n : Nat} {doc : Subscriber}
    (h : ∀ d ∈ l, d.oid ≠ n) : deleteFirstById n (l ++ [⟨n, doc⟩]) = l := by
  induction l with
  | nil => simp [deleteFirstById]
  | cons d rest ih =>
    have hd : d.oid ≠ n := h d (by simp)
    simp only [List.cons_append, deleteFirstById, if_neg hd, List.append_eq]
    rw [ih fun x hx => h x (by simp [hx])]

theorem mem_eq_of_oid_eq {db : DB} (hwf : DB.WF db) {d d' : StoredDoc}
    (hd : d ∈ db.docs) (hd' : d' ∈ db.docs) (h : d.oid = d'.oid) : d = d' :=
  List.inj_on_of_nodup_map hwf.2 hd hd' h

theorem find_one_none {db : DB} {e : String} (h : find_one db e = none) :
    db.docs.find? (fun d => d.doc.email == e) = none := by
  simpa [find_one] using h

theorem find_one_some {db : DB} {e : String} {sub : Subscriber}
    (h : find_one db e = some sub) :
    ∃ sd, db.docs.find? (fun d => d.doc.email == e) = some sd ∧ sd.doc = sub := by
  simpa [find_one] using h

theorem is_valid_email_ne_empty {s : String} (h : is_valid_email s = true) : s ≠ "" := by
  intro he
  rw [he] at h
  exact absurd h (by decide)

/-! ### Claim theorems -/

/-- Claim C3: a token verifies to an email only if it is exactly what `issue`
produces for that email at the embedded timestamp (unaltered signature) and the
elapsed time does not exceed `max_age`; a freshly issued token verifies back to
its email within the window, never to a different email, and always fails once
the elapsed time exceeds `max_age`. -/
theorem token_codec_spec (secret e : String) (t0 now max_age : Nat) (tok : SignedToken) :
    (verify_validation_token secret tok now max_age = some e →
      tok = generate_validation_token secret e tok.timestamp ∧
        now - tok.timestamp ≤ max_age) ∧
    (now - t0 ≤ max_age →
      verify_validation_token secret (generate_validation_token secret e t0) now max_age =
        some e) ∧
    (∀ e2, verify_validation_token secret (generate_validation_token secret e t0) now max_age =
        some e2 → e2 = e) ∧
    (max_age < now - t0 →
      verify_validation_token secret (generate_validation_token secret e t0) now max_age =
        none) := by
  refine ⟨?_, ?_, ?_, ?_⟩
  · intro h
    unfold verify_validation_token at h
    by_cases hc : tok.secret = secret ∧ tok.salt = "email-validation" ∧
        now - tok.timestamp ≤ max_age
    · rw [if_pos hc] at h
      injection h with h
      obtain ⟨h1, h2, h3⟩ := hc
      refine ⟨?_, h3⟩
      cases tok with
      | mk p sa ts se =>
        simp only [generate_validation_token, SignedToken.mk.injEq] at h h1 h2 ⊢
        exact ⟨h, h2, trivial, h1⟩
    · rw [if_neg hc] at h
      exact absurd h (by simp)
  · intro hage
    unfold verify_validation_token generate_validation_token
    rw [if_pos ⟨rfl, rfl, hage⟩]
  · intro e2 h
    unfold verify_validation_token generate_validation_token at h
    split at h
    · injection h with h
      exact h.symm
    · exact absurd h (by simp)
  · intro hgt
    unfold verify_validation_token
    rw [if_neg]
    intro hc
    obtain ⟨-, -, h3⟩ := hc
    simp only [generate_validation_token] at h3
    omega

/-- Witness for the token-codec claim at concrete inputs: round trip at age 0
within the window, and failure at age 5000 with window 3600. -/
theorem token_codec_spec_witness :
    (0 - 0 ≤ 3600 ∧
      verify_validation_token "k" (generate_validation_token "k" "a@x.com" 0) 0 3600 =
        some "a@x.com") ∧
    (3600 < 5000 - 0 ∧
      verify_validation_token "k" (generate_validation_token "k" "a@x.com" 0) 5000 3600 =
        none) :=
  ⟨⟨by decide,
    (token_codec_spec "k" "a@x.com" 0 0 3600 (generate_validation_token "k" "a@x.com" 0)).2.1
      (by decide)⟩,
   ⟨by decide,
    (token_codec_spec "k" "a@x.com" 0 5000 3600 (generate_validation_token "k" "a@x.com" 0)).2.2.2
      (by decide)⟩⟩

/-- Claim C9 counterexample: on the empty string, `submit_email` rejects with
the "Email address is required" message (HTTP 400, no store write), which is a
different response from the invalid-address rejection the claim names. -/
theorem submit_email_empty_string_not_invalid_email :
    submit_email "k" 0 true "" ⟨[], 0⟩ =
      (⟨false, Msg.emailRequired, 400⟩, ⟨[], 0⟩, []) ∧
    Msg.emailRequired ≠ Msg.invalidEmail := by
  exact ⟨by decide, by decide⟩

/-- Claim C9 (amended): every string whose normalization fails the syntactic
email check is rejected with HTTP 400, `success = false` and no store write and
no mail sent; the message is the required-field message when the normalized
string is empty and the invalid-address message otherwise. -/
theorem submit_email_invalid_rejected (secret : String) (now : Nat) (mailOk : Bool)
    (raw e : String) (db : DB) (hn : normalizeEmail raw = e)
    (hv : is_valid_email e = false) :
    submit_email secret now mailOk raw db =
      (⟨false, if e = "" then Msg.emailRequired else Msg.invalidEmail, 400⟩, db, []) := by
  by_cases he : e = "" <;> simp [submit_email, hn, he, hv]

/-- Witness for the invalid-email rejection claim at the concrete input
"not-an-email". -/
theorem submit_email_invalid_rejected_witness :
    (normalizeEmail "not-an-email" = "not-an-email" ∧
      is_valid_email "not-an-email" = false) ∧
    submit_email "k" 0 true "not-an-email" ⟨[], 0⟩ =
      (⟨false, if "not-an-email" = "" then Msg.emailRequired else Msg.invalidEmail, 400⟩,
       ⟨[], 0⟩, []) :=
  ⟨⟨by decide, by decide⟩,
   submit_email_invalid_rejected "k" 0 true "not-an-email" "not-an-email" ⟨[], 0⟩
     (by decide) (by decide)⟩

/-- Claim C7: for a PENDING record, a mail failure during re-signup leaves the
whole store state exactly unchanged — no field of any record is touched — and
the handler reports the mail-failure response (HTTP 500); the validation
dispatch was attempted exactly once. -/
theorem submit_email_pending_mail_failure_frame (secret : String) (now : Nat)
    (raw e : String) (db : DB) (sub : Subscriber)
    (hn : normalizeEmail raw = e)
    (hv : is_valid_email e = true)
    (hf : find_one db e = some sub)
    (hp : sub.email_validated = false) :
    submit_email secret now false raw db =
      (⟨false, Msg.mailSendFailed, 500⟩, db,
       [MailEvent.validation e (generate_validation_token secret e now)]) := by
  have hne : e ≠ "" := is_valid_email_ne_empty hv
  simp [submit_email, hn, hne, hv, hf, hp]

/-- Witness for the PENDING mail-failure frame claim at a concrete store. -/
theorem submit_email_pending_mail_failure_frame_witness :
    (normalizeEmail "a@b.co" = "a@b.co" ∧ is_valid_email "a@b.co" = true ∧
      find_one dbA "a@b.co" = some subA ∧ subA.email_validated = false) ∧
    submit_email "k" 7 false "a@b.co" dbA =
      (⟨false, Msg.mailSendFailed, 500⟩, dbA,
       [MailEvent.validation "a@b.co" (generate_validation_token "k" "a@b.co" 7)]) :=
  ⟨⟨by decide, by decide, by decide, by decide⟩,
   submit_email_pending_mail_failure_frame "k" 7 "a@b.co" "a@b.co" dbA subA
     (by decide) (by decide) (by decide) (by decide)⟩

/-- Claim C2: on a fresh (state NONE) valid email, if the validation mail
fails, `submit_email` deletes the record it just inserted and reports the
mail failure, so the stored documents are exactly as before and zero records
exist for that email. -/
theorem submit_email_fresh_mail_failure_compensates (secret : String) (now : Nat)
    (raw e : String) (db : DB)
    (hwf : DB.WF db)
    (hn : normalizeEmail raw = e)
    (hv : is_valid_email e = true)
    (hf : find_one db e = none) :
    (submit_email secret now false raw db).1 = ⟨false, Msg.mailSendFailed, 500⟩ ∧
    (submit_email secret now false raw db).2.1.docs = db.docs ∧
    (submit_email secret now false raw db).2.1.docs.countP
      (fun d => d.doc.email == e) = 0 := by
  have hne : e ≠ "" := is_valid_email_ne_empty hv
  have hfind := find_one_none hf
  have hmain : submit_email secret now false raw db =
      (⟨false, Msg.mailSendFailed, 500⟩, ⟨db.docs, db.nextId + 1⟩,
       [MailEvent.validation e (generate_validation_token secret e now)]) := by
    simp [submit_email, hn, hne, hv, hf, insert_one, delete_one_id,
      deleteFirstById_append_fresh (fun d hd => Nat.ne_of_lt (hwf.1 d hd))]
  rw [hmain]
  refine ⟨rfl, rfl, List.countP_eq_zero.mpr ?_⟩
  exact List.find?_eq_none.mp hfind

/-- Witness for the compensating-delete claim starting from a store holding an
unrelated record. -/
theorem submit_email_fresh_mail_failure_compensates_witness :
    (DB.WF dbZ ∧ normalizeEmail "a@b.co" = "a@b.co" ∧
      is_valid_email "a@b.co" = true ∧ find_one dbZ "a@b.co" = none) ∧
    ((submit_email "k" 3 false "a@b.co" dbZ).1 = ⟨false, Msg.mailSendFailed, 500⟩ ∧
     (submit_email "k" 3 false "a@b.co" dbZ).2.1.docs = dbZ.docs ∧
     (submit_email "k" 3 false "a@b.co" dbZ).2.1.docs.countP
       (fun d => d.doc.email == "a@b.co") = 0) :=
  ⟨⟨⟨by decide, by decide⟩, by decide, by decide, by decide⟩,
   submit_email_fresh_mail_failure_compensates "k" 3 "a@b.co" "a@b.co" dbZ
     ⟨by decide, by decide⟩ (by decide) (by decide) (by decide)⟩

/-- Claim C5: a valid token for an already-validated record yields the
success-shaped AlreadyValidated page, the store state is returned unchanged
(no write), and no mail is dispatched — so a repeat call leaves everything as
it was. -/
theorem validate_email_already_validated_idempotent (secret : String) (now : Nat)
    (welcomeOk : Bool) (token : SignedToken) (db : DB) (e : String) (sub : Subscriber)
    (hv : verify_validation_token secret token now 3600 = some e)
    (hf : find_one db e = some sub)
    (hval : sub.email_validated = true) :
    validate_email secret now welcomeOk token db =
      (⟨true, Msg.alreadyValidatedWelcome⟩, db, []) := by
  simp [validate_email, hv, hf, hval]

/-- Witness for the AlreadyValidated idempotency claim at a concrete validated
record. -/
theorem validate_email_already_validated_idempotent_witness :
    (verify_validation_token "k" tokA 5 3600 = some "a@b.co" ∧
     find_one dbV "a@b.co" = some subV ∧ subV.email_validated = true) ∧
    validate_email "k" 5 true tokA dbV =
      (⟨true, Msg.alreadyValidatedWelcome⟩, dbV, []) :=
  ⟨⟨by decide, by decide, by decide⟩,
   validate_email_already_validated_idempotent "k" 5 true tokA dbV "a@b.co" subV
     (by decide) (by decide) (by decide)⟩

/-- Claim C8: for an unvalidated record and a valid token, the result of
`validate_email` is identical whether or not the welcome mail succeeds — the
code ignores the dispatcher's outcome — the page reports Validated, and the
stored record carries the full transition (validated, dated, token fields
cleared). -/
theorem validate_email_welcome_failure_no_rollback (secret : String) (now : Nat)
    (token : SignedToken) (db : DB) (e : String) (sub : Subscriber)
    (hv : verify_validation_token secret token now 3600 = some e)
    (hf : find_one db e = some sub)
    (hp : sub.email_validated = false) :
    ∀ welcomeOk : Bool,
      validate_email secret now welcomeOk token db =
        validate_email secret now true token db ∧
      (validate_email secret now welcomeOk token db).1 = ⟨true, Msg.validatedWelcome⟩ ∧
      find_one (validate_email secret now welcomeOk token db).2.1 e =
        some { sub with email_validated := true, validation_date := some now,
                        updated_at := now, validation_token := none,
                        token_created_at := none } := by
  intro welcomeOk
  obtain ⟨sd, hsd, hdoc⟩ := find_one_some hf
  refine ⟨rfl, ?_, ?_⟩
  · simp [validate_email, hv, hf, hp]
  · have hfu := find?_updateFirst e
      (fun s => { s with email_validated := true, validation_date := some now,
                         updated_at := now, validation_token := none,
                         token_created_at := none }) hsd rfl
    have hstep : (validate_email secret now welcomeOk token db).2.1 =
        ⟨(updateFirst e
            (fun s => { s with email_validated := true, validation_date := some now,
                               updated_at := now, validation_token := none,
                               token_created_at := none })
            db.docs).1, db.nextId⟩ := by
      simp [validate_email, hv, hf, hp, update_one]
    rw [hstep]
    simp [find_one, hfu, hdoc]

/-- Witness for the no-rollback claim: validation with a failing welcome mail
at a concrete pending record. -/
theorem validate_email_welcome_failure_no_rollback_witness :
    (verify_validation_token "k" tokA 5 3600 = some "a@b.co" ∧
     find_one dbA "a@b.co" = some subA ∧ subA.email_validated = false) ∧
    (validate_email "k" 5 false tokA dbA = validate_email "k" 5 true tokA dbA ∧
     (validate_email "k" 5 false tokA dbA).1 = ⟨true, Msg.validatedWelcome⟩ ∧
     find_one (validate_email "k" 5 false tokA dbA).2.1 "a@b.co" =
       some { subA with email_validated := true, validation_date := some 5,
                        updated_at := 5, validation_token := none,
                        token_created_at := none }) :=
  ⟨⟨by decide, by decide, by decide⟩,
   validate_email_welcome_failure_no_rollback "k" 5 tokA dbA "a@b.co" subA
     (by decide) (by decide) (by decide) false⟩

/-- Claim C10: on the AlreadyValidated path the mail dispatcher is not invoked
at all, and, conversely, a welcome invocation happens only when the token
verified, a record was found, and that record was still unvalidated — the
first PENDING-to-VALIDATED transition. -/
theorem validate_email_welcome_only_on_transition (secret : String) (now : Nat)
    (welcomeOk : Bool) (token : SignedToken) (db : DB) :
    (∀ e sub, verify_validation_token secret token now 3600 = some e →
       find_one db e = some sub → sub.email_validated = true →
       (validate_email secret now welcomeOk token db).2.2 = []) ∧
    (∀ e prefs,
       MailEvent.welcome e prefs ∈ (validate_email secret now welcomeOk token db).2.2 →
       ∃ sub, verify_validation_token secret token now 3600 = some e ∧
         find_one db e = some sub ∧ sub.email_validated = false ∧
         prefs = sub.content_preferences) := by
  constructor
  · intro e sub hv hf hval
    simp [validate_email, hv, hf, hval]
  · intro e prefs hmem
    cases hv : verify_validation_token secret token now 3600 with
    | none => simp [validate_email, hv] at hmem
    | some e1 =>
      cases hf : find_one db e1 with
      | none => simp [validate_email, hv, hf] at hmem
      | some sub =>
        cases hval : sub.email_validated with
        | true => simp [validate_email, hv, hf, hval] at hmem
        | false =>
          simp [validate_email, hv, hf, hval] at hmem
          obtain ⟨he, hp⟩ := hmem
          subst he
          exact ⟨sub, rfl, hf, hval, hp⟩

/-- Witness for the welcome-only-on-transition claim: no dispatcher invocation
on a concrete already-validated record. -/
theorem validate_email_welcome_only_on_transition_witness :
    (verify_validation_token "k" tokA 5 3600 = some "a@b.co" ∧
     find_one dbV "a@b.co" = some subV ∧ subV.email_validated = true) ∧
    (validate_email "k" 5 true tokA dbV).2.2 = [] :=
  ⟨⟨by decide, by decide, by decide⟩,
   (validate_email_welcome_only_on_transition "k" 5 true tokA dbV).1 "a@b.co" subV
     (by decide) (by decide) (by decide)⟩

/-- Claim C1 counterexample: a store whose record for a@b.co already holds the
submitted preferences and whose `updated_at` equals the current time; the
update matches the record, yet the handler reports the NotFound outcome
because `modified_count` is 0. -/
theorem submit_survey_matched_noop_reports_not_found :
    find_one ⟨[⟨0, ⟨"a@b.co", false, some tokA, some 0, ["x"], 0, 5, none⟩⟩], 1⟩
        "a@b.co" = some ⟨"a@b.co", false, some tokA, some 0, ["x"], 0, 5, none⟩ ∧
    (submit_survey 5 "a@b.co" ["x"]
        ⟨[⟨0, ⟨"a@b.co", false, some tokA, some 0, ["x"], 0, 5, none⟩⟩], 1⟩).1 =
      ⟨false, Msg.subscriberNotFound, 404⟩ := by
  exact ⟨by decide, by decide⟩

/-- Claim C1 (amended): `submit_survey` always overwrites
`content_preferences` and `updated_at` of the first matching record; it
reports Updated exactly when the write actually modified the stored record
(`modified_count > 0`) and NotFound both when no record matched and when the
matched record already held exactly the submitted preferences with
`updated_at` equal to the current time. -/
theorem submit_survey_outcome_by_modification (now : Nat) (raw e : String)
    (prefs : List String) (db : DB)
    (hn : normalizeEmail raw = e) (hne : e ≠ "") :
    (find_one db e = none →
      submit_survey now raw prefs db = (⟨false, Msg.subscriberNotFound, 404⟩, db)) ∧
    (∀ sub, find_one db e = some sub →
      find_one (submit_survey now raw prefs db).2 e =
        some { sub with content_preferences := prefs, updated_at := now } ∧
      (submit_survey now raw prefs db).1 =
        (if ({ sub with content_preferences := prefs, updated_at := now } : Subscriber) = sub
         then (⟨false, Msg.subscriberNotFound, 404⟩ : JsonResponse)
         else ⟨true, Msg.preferencesUpdated, 200⟩)) := by
  constructor
  · intro hf
    have hfind := find_one_none hf
    simp [submit_survey, hn, hne, update_one, updateFirst_of_find?_none e _ hfind]
  · intro sub hf
    obtain ⟨sd, hsd, hdoc⟩ := find_one_some hf
    have hres := updateFirst_of_find?_some e
      (fun s => { s with content_preferences := prefs, updated_at := now }) hsd
    have hfu := find?_updateFirst e
      (fun s => { s with content_preferences := prefs, updated_at := now }) hsd rfl
    constructor
    · by_cases hmod : 0 < (updateFirst e
          (fun s => { s with content_preferences := prefs, updated_at := now })
          db.docs).2.modified_count <;>
        simp [submit_survey, hn, hne, update_one, hmod, find_one, hfu, hdoc]
    · simp only [submit_survey, hn, hne, update_one]
      rw [hres, hdoc]
      by_cases hc : ({ sub with content_preferences := prefs, updated_at := now } :
          Subscriber) = sub
      · simp [hc]
      · simp [hc]

/-- Witness for the amended preference-update claim at a concrete matching
record whose preferences change. -/
theorem submit_survey_outcome_by_modification_witness :
    (normalizeEmail "a@b.co" = "a@b.co" ∧ ("a@b.co" : String) ≠ "" ∧
      find_one dbA "a@b.co" = some subA) ∧
    (find_one (submit_survey 5 "a@b.co" ["y"] dbA).2 "a@b.co" =
       some { subA with content_preferences := ["y"], updated_at := 5 } ∧
     (submit_survey 5 "a@b.co" ["y"] dbA).1 =
       (if ({ subA with content_preferences := ["y"], updated_at := 5 } : Subscriber) = subA
        then (⟨false, Msg.subscriberNotFound, 404⟩ : JsonResponse)
        else ⟨true, Msg.preferencesUpdated, 200⟩)) :=
  ⟨⟨by decide, by decide, by decide⟩,
   (submit_survey_outcome_by_modification 5 "a@b.co" "a@b.co" ["y"] dbA
      (by decide) (by decide)).2 subA (by decide)⟩

/-- Claim C6 counterexample: two Signup calls whose token issuance happens at
the same embedded timestamp (the serializer records whole seconds) return the
very same token value on the resend: the second call still reports the resend
success, but its dispatched token equals the first call's token. -/
theorem resignup_same_timestamp_token_equal :
    (submit_email "k" 0 true "a@b.co" dbE).2.2 =
      [MailEvent.validation "a@b.co" (generate_validation_token "k" "a@b.co" 0)] ∧
    (submit_email "k" 0 true "a@b.co" (submit_email "k" 0 true "a@b.co" dbE).2.1).1 =
      ⟨true, Msg.resentValidation, 200⟩ ∧
    (submit_email "k" 0 true "a@b.co" (submit_email "k" 0 true "a@b.co" dbE).2.1).2.2 =
      [MailEvent.validation "a@b.co" (generate_validation_token "k" "a@b.co" 0)] := by
  exact ⟨by decide, by decide, by decide⟩

/-- Claim C6 (amended): two successive Signup calls on a fresh email without
validation leave exactly one record for it, report CreatedOk then ResentOk,
and — provided the two token issuances happen at different timestamps — the
re-issued token differs from the first. -/
theorem resignup_new_timestamp_token_differs (secret : String) (raw e : String)
    (db : DB) (now1 now2 : Nat)
    (hn : normalizeEmail raw = e)
    (hv : is_valid_email e = true)
    (hf : find_one db e = none)
    (hne2 : now1 ≠ now2) :
    (submit_email secret now1 true raw db).1 = ⟨true, Msg.checkYourEmail, 200⟩ ∧
    (submit_email secret now2 true raw (submit_email secret now1 true raw db).2.1).1 =
      ⟨true, Msg.resentValidation, 200⟩ ∧
    ((submit_email secret now2 true raw
        (submit_email secret now1 true raw db).2.1).2.1.docs.countP
      (fun d => d.doc.email == e)) = 1 ∧
    (submit_email secret now2 true raw (submit_email secret now1 true raw db).2.1).2.2 =
      [MailEvent.validation e (generate_validation_token secret e now2)] ∧
    generate_validation_token secret e now2 ≠ generate_validation_token secret e now1 := by
  have hnee : e ≠ "" := is_valid_email_ne_empty hv
  have hfind := find_one_none hf
  have h1 : submit_email secret now1 true raw db =
      (⟨true, Msg.checkYourEmail, 200⟩,
       ⟨db.docs ++ [⟨db.nextId, ⟨e, false, some (generate_validation_token secret e now1),
         some now1, [], now1, now1, none⟩⟩], db.nextId + 1⟩,
       [MailEvent.validation e (generate_validation_token secret e now1)]) := by
    simp [submit_email, hn, hnee, hv, hf, insert_one]
  have hfind1 : (db.docs ++ [(⟨db.nextId, ⟨e, false,
      some (generate_validation_token secret e now1), some now1, [], now1, now1,
      none⟩⟩ : StoredDoc)]).find? (fun d => d.doc.email == e) =
      some (⟨db.nextId, ⟨e, false, some (generate_validation_token secret e now1),
        some now1, [], now1, now1, none⟩⟩ : StoredDoc) := by
    rw [find?_append_of_none hfind]
    exact List.find?_cons_of_pos (p := fun (d : StoredDoc) => d.doc.email == e) [] (by simp)
  have hf1 : find_one ⟨db.docs ++ [⟨db.nextId, ⟨e, false,
      some (generate_validation_token secret e now1), some now1, [], now1, now1,
      none⟩⟩], db.nextId + 1⟩ e =
      some ⟨e, false, some (generate_validation_token secret e now1), some now1, [],
        now1, now1, none⟩ := by
    simp only [find_one]
    rw [hfind1]
    rfl
  have h2 : submit_email secret now2 true raw
      (⟨db.docs ++ [⟨db.nextId, ⟨e, false, some (generate_validation_token secret e now1),
        some now1, [], now1, now1, none⟩⟩], db.nextId + 1⟩ : DB) =
      (⟨true, Msg.resentValidation, 200⟩,
       ⟨(updateFirst e (fun s => { s with
           validation_token := some (generate_validation_token secret e now2),
           token_created_at := some now2, updated_at := now2 })
         (db.docs ++ [⟨db.nextId, ⟨e, false, some (generate_validation_token secret e now1),
           some now1, [], now1, now1, none⟩⟩])).1, db.nextId + 1⟩,
       [MailEvent.validation e (generate_validation_token secret e now2)]) := by
    simp [submit_email, hn, hnee, hv, hf1, update_one]
  refine ⟨by rw [h1], by rw [h1, h2], ?_, by rw [h1, h2], ?_⟩
  · simp only [h1, h2]
    rw [countP_updateFirst e
      (fun s => { s with
        validation_token := some (generate_validation_token secret e now2),
        token_created_at := some now2, updated_at := now2 })
      (fun d => d.doc.email == e) (fun oid s => rfl), List.countP_append,
      List.countP_eq_zero.mpr (List.find?_eq_none.mp hfind)]
    simp
  · intro hgen
    have hts : now2 = now1 := by
      have h := congrArg SignedToken.timestamp hgen
      simpa [generate_validation_token] using h
    exact hne2 hts.symm

/-- Witness for the amended re-signup claim at issuance times 0 and 1 on the
empty store. -/
theorem resignup_new_timestamp_token_differs_witness :
    (normalizeEmail "a@b.co" = "a@b.co" ∧ is_valid_email "a@b.co" = true ∧
      find_one dbE "a@b.co" = none ∧ (0 : Nat) ≠ 1) ∧
    ((submit_email "k" 0 true "a@b.co" dbE).1 = ⟨true, Msg.checkYourEmail, 200⟩ ∧
     (submit_email "k" 1 true "a@b.co" (submit_email "k" 0 true "a@b.co" dbE).2.1).1 =
       ⟨true, Msg.resentValidation, 200⟩ ∧
     ((submit_email "k" 1 true "a@b.co"
         (submit_email "k" 0 true "a@b.co" dbE).2.1).2.1.docs.countP
       (fun d => d.doc.email == "a@b.co")) = 1 ∧
     (submit_email "k" 1 true "a@b.co" (submit_email "k" 0 true "a@b.co" dbE).2.1).2.2 =
       [MailEvent.validation "a@b.co" (generate_validation_token "k" "a@b.co" 1)] ∧
     generate_validation_token "k" "a@b.co" 1 ≠ generate_validation_token "k" "a@b.co" 0) :=
  ⟨⟨by decide, by decide, by decide, by decide⟩,
   resignup_new_timestamp_token_differs "k" "a@b.co" "a@b.co" dbE 0 1
     (by decide) (by decide) (by decide) (by decide)⟩

/-! ### Invariant preservation (claim C4) -/

theorem noUnvalidate_of_docs_eq {db db' : DB} (hwf : DB.WF db)
    (h : db'.docs = db.docs) : noUnvalidate db db' := by
  intro d' hd' d hd hoid hval
  rw [h] at hd'
  have heq : d' = d := mem_eq_of_oid_eq hwf hd' hd hoid
  rw [heq]
  exact hval

theorem noUnvalidate_update {db : DB} (hwf : DB.WF db) (e : String)
    (f : Subscriber → Subscriber)
    (hmono : ∀ s, s.email_validated = true → (f s).email_validated = true) :
    noUnvalidate db ⟨(updateFirst e f db.docs).1, db.nextId⟩ := by
  intro d' hd' d hd hoid hval
  rcases mem_updateFirst e f hd' with hmem | ⟨d0, hfind, rfl⟩
  · have heq : d' = d := mem_eq_of_oid_eq hwf hmem hd hoid
    rw [heq]
    exact hval
  · have hd0 : d0 ∈ db.docs := List.mem_of_find?_eq_some hfind
    have heq : d0 = d := mem_eq_of_oid_eq hwf hd0 hd hoid
    show (f d0.doc).email_validated = true
    rw [heq]
    exact hmono d.doc hval

theorem storeInv_update {db : DB} (hinv : storeInv db) (e : String)
    (f : Subscriber → Subscriber)
    (h : ∀ d0, db.docs.find? (fun x => x.doc.email == e) = some d0 →
      recInv (f d0.doc)) :
    storeInv ⟨(updateFirst e f db.docs).1, db.nextId⟩ := by
  intro d' hd'
  rcases mem_updateFirst e f hd' with hmem | ⟨d0, hfind, rfl⟩
  · exact hinv d' hmem
  · exact h d0 hfind

theorem submit_email_preserves_inv (secret : String) (now : Nat) (mailOk : Bool)
    (raw : String) (db : DB) (hwf : DB.WF db) (hinv : storeInv db) :
    storeInv (submit_email secret now mailOk raw db).2.1 ∧
      noUnvalidate db (submit_email secret now mailOk raw db).2.1 := by
  by_cases he : normalizeEmail raw = ""
  · have hres : (submit_email secret now mailOk raw db).2.1 = db := by
      simp [submit_email, he]
    rw [hres]
    exact ⟨hinv, noUnvalidate_of_docs_eq hwf rfl⟩
  by_cases hv : is_valid_email (normalizeEmail raw) = true
  case neg =>
    have hvf : is_valid_email (normalizeEmail raw) = false := by
      cases h2 : is_valid_email (normalizeEmail raw)
      · rfl
      · exact absurd h2 hv
    have hres : (submit_email secret now mailOk raw db).2.1 = db := by
      simp [submit_email, he, hvf]
    rw [hres]
    exact ⟨hinv, noUnvalidate_of_docs_eq hwf rfl⟩
  case pos =>
    cases hfind : find_one db (normalizeEmail raw) with
    | some existing =>
      cases hval : existing.email_validated with
      | true =>
        have hres : (submit_email secret now mailOk raw db).2.1 = db := by
          simp [submit_email, he, hv, hfind, hval]
        rw [hres]
        exact ⟨hinv, noUnvalidate_of_docs_eq hwf rfl⟩
      | false =>
        cases mailOk with
        | false =>
          have hres : (submit_email secret now false raw db).2.1 = db := by
            simp [submit_email, he, hv, hfind, hval]
          rw [hres]
          exact ⟨hinv, noUnvalidate_of_docs_eq hwf rfl⟩
        | true =>
          obtain ⟨sd, hsd, hdoc⟩ := find_one_some hfind
          have hres : (submit_email secret now true raw db).2.1 =
              ⟨(updateFirst (normalizeEmail raw)
                (fun s => { s with
                  validation_token :=
                    some (generate_validation_token secret (normalizeEmail raw) now),
                  token_created_at := some now, updated_at := now })
                db.docs).1, db.nextId⟩ := by
            simp [submit_email, he, hv, hfind, hval, update_one]
          rw [hres]
          constructor
          · apply storeInv_update hinv
            intro d0 h0
            have hd0 : d0 = sd := Option.some.inj (h0.symm.trans hsd)
            subst hd0
            simp [recInv, hdoc, hval]
          · exact noUnvalidate_update hwf _ _ (fun s hs => hs)
    | none =>
      cases mailOk with
      | true =>
        have hres : (submit_email secret now true raw db).2.1 =
            ⟨db.docs ++ [⟨db.nextId, ⟨normalizeEmail raw, false,
              some (generate_validation_token secret (normalizeEmail raw) now),
              some now, [], now, now, none⟩⟩], db.nextId + 1⟩ := by
          simp [submit_email, he, hv, hfind, insert_one]
        rw [hres]
        constructor
        · intro d' hd'
          rcases List.mem_append.mp hd' with hmem | hmem
          · exact hinv d' hmem
          · rw [List.mem_singleton.mp hmem]
            exact ⟨rfl, rfl⟩
        · intro d' hd' d hd hoid hval
          rcases List.mem_append.mp hd' with hmem | hmem
          · have heq : d' = d := mem_eq_of_oid_eq hwf hmem hd hoid
            rw [heq]
            exact hval
          · exfalso
            have hlt := hwf.1 d hd
            rw [List.mem_singleton.mp hmem] at hoid
            simp only at hoid
            omega
      | false =>
        have hres : (submit_email secret now false raw db).2.1 =
            ⟨db.docs, db.nextId + 1⟩ := by
          simp [submit_email, he, hv, hfind, insert_one, delete_one_id,
            deleteFirstById_append_fresh (fun d hd => Nat.ne_of_lt (hwf.1 d hd))]
        rw [hres]
        exact ⟨hinv, noUnvalidate_of_docs_eq hwf rfl⟩

theorem submit_survey_preserves_inv (now : Nat) (raw : String) (prefs : List String)
    (db : DB) (hwf : DB.WF db) (hinv : storeInv db) :
    storeInv (submit_survey now raw prefs db).2 ∧
      noUnvalidate db (submit_survey now raw prefs db).2 := by
  by_cases he : normalizeEmail raw = ""
  · have hres : (submit_survey now raw prefs db).2 = db := by
      simp [submit_survey, he]
    rw [hres]
    exact ⟨hinv, noUnvalidate_of_docs_eq hwf rfl⟩
  · have hres : (submit_survey now raw prefs db).2 =
        ⟨(updateFirst (normalizeEmail raw)
          (fun s => { s with content_preferences := prefs, updated_at := now })
          db.docs).1, db.nextId⟩ := by
      by_cases hmod : 0 < (updateFirst (normalizeEmail raw)
          (fun s => { s with content_preferences := prefs, updated_at := now })
          db.docs).2.modified_count <;>
        simp [submit_survey, he, update_one, hmod]
    rw [hres]
    constructor
    · apply storeInv_update hinv
      intro d0 h0
      exact hinv d0 (List.mem_of_find?_eq_some h0)
    · exact noUnvalidate_update hwf _ _ (fun s hs => hs)

theorem validate_email_preserves_inv (secret : String) (now : Nat)
    (welcomeOk : Bool) (token : SignedToken) (db : DB)
    (hwf : DB.WF db) (hinv : storeInv db) :
    storeInv (validate_email secret now welcomeOk token db).2.1 ∧
      noUnvalidate db (validate_email secret now welcomeOk token db).2.1 := by
  cases hv : verify_validation_token secret token now 3600 with
  | none =>
    have hres : (validate_email secret now welcomeOk token db).2.1 = db := by
      simp [validate_email, hv]
    rw [hres]
    exact ⟨hinv, noUnvalidate_of_docs_eq hwf rfl⟩
  | some e =>
    cases hf : find_one db e with
    | none =>
      have hres : (validate_email secret now welcomeOk token db).2.1 = db := by
        simp [validate_email, hv, hf]
      rw [hres]
      exact ⟨hinv, noUnvalidate_of_docs_eq hwf rfl⟩
    | some sub =>
      cases hval : sub.email_validated with
      | true =>
        have hres : (validate_email secret now welcomeOk token db).2.1 = db := by
          simp [validate_email, hv, hf, hval]
        rw [hres]
        exact ⟨hinv, noUnvalidate_of_docs_eq hwf rfl⟩
      | false =>
        have hres : (validate_email secret now welcomeOk token db).2.1 =
            ⟨(updateFirst e
              (fun s => { s with email_validated := true, validation_date := some now,
                                 updated_at := now, validation_token := none,
                                 token_created_at := none })
              db.docs).1, db.nextId⟩ := by
          simp [validate_email, hv, hf, hval, update_one]
        rw [hres]
        constructor
        · apply storeInv_update hinv
          intro d0 h0
          exact ⟨rfl, rfl⟩
        · exact noUnvalidate_update hwf _ _ (fun s hs => rfl)

/-- Claim C4: each lifecycle operation preserves the record invariant that
`validation_token` and `token_created_at` are present exactly while
`email_validated` is false — they are cleared in the same store write that
sets `email_validated` — and no operation ever turns `email_validated` from
true back to false for any stored document. -/
theorem lifecycle_preserves_record_invariant (secret : String) (now : Nat)
    (mailOk welcomeOk : Bool) (raw : String) (prefs : List String)
    (token : SignedToken) (db : DB) (hwf : DB.WF db) (hinv : storeInv db) :
    (storeInv (submit_email secret now mailOk raw db).2.1 ∧
      noUnvalidate db (submit_email secret now mailOk raw db).2.1) ∧
    (storeInv (submit_survey now raw prefs db).2 ∧
      noUnvalidate db (submit_survey now raw prefs db).2) ∧
    (storeInv (validate_email secret now welcomeOk token db).2.1 ∧
      noUnvalidate db (validate_email secret now welcomeOk token db).2.1) :=
  ⟨submit_email_preserves_inv secret now mailOk raw db hwf hinv,
   submit_survey_preserves_inv now raw prefs db hwf hinv,
   validate_email_preserves_inv secret now welcomeOk token db hwf hinv⟩

/-- Witness for the invariant-preservation claim at the concrete pending
store. -/
theorem lifecycle_preserves_record_invariant_witness :
    (DB.WF dbA ∧ storeInv dbA) ∧
    ((storeInv (submit_email "k" 1 true "a@b.co" dbA).2.1 ∧
       noUnvalidate dbA (submit_email "k" 1 true "a@b.co" dbA).2.1) ∧
     (storeInv (submit_survey 1 "a@b.co" ["y"] dbA).2 ∧
       noUnvalidate dbA (submit_survey 1 "a@b.co" ["y"] dbA).2) ∧
     (storeInv (validate_email "k" 1 true tokA dbA).2.1 ∧
       noUnvalidate dbA (validate_email "k" 1 true tokA dbA).2.1)) := by
  have hwfA : DB.WF dbA := ⟨by decide, by decide⟩
  have hinvA : storeInv dbA := by
    intro d hd
    rw [List.mem_singleton.mp hd]
    exact ⟨rfl, rfl⟩
  exact ⟨⟨hwfA, hinvA⟩,
    lifecycle_preserves_record_invariant "k" 1 true true "a@b.co" ["y"] tokA dbA
      hwfA hinvA⟩

end DeepSignal
